import Mathlib

/-!
# Verification of the unwrap-infallible crate

Shallow embedding of `src/lib.rs` (crate `unwrap-infallible`) and its test
modules.  The crate provides the trait `UnwrapInfallible` with the single
method `unwrap_infallible`, implemented for `Result` types whose error type
is statically uninhabited.  Three feature-gated implementations exist:

* a blanket impl for `Result<T, E>` where `E: From<!>` (feature
  `blanket_impl`),
* an impl for `Result<T, !>` (feature `never_type`, without `blanket_impl`),
* an impl for `Result<T, Infallible>` (without `blanket_impl`).

Each implementation is `self.unwrap_or_else(|_| unsafe { unreachable_unchecked() })`.
We model Rust functions that may panic or invoke undefined behaviour as
functions into an `Outcome` type with explicit `panicked` and `undef`
results, so that "the UB branch is never executed" and "never panics" are
statable properties rather than meta-level remarks.
-/

namespace UnwrapInfallibleCrate

/-- The canonical empty type `core::convert::Infallible`: an enum with no
variants, hence no runtime values. -/
inductive Infallible : Type

/-- The never type `!`: the built-in uninhabited type. -/
inductive Never : Type

/-- The user-defined zero-variant enum `MyNeverToken` declared in the test
modules (`enum MyNeverToken {}`). -/
inductive MyNeverToken : Type

instance : IsEmpty Infallible := ⟨fun x => nomatch x⟩

instance : IsEmpty Never := ⟨fun x => nomatch x⟩

instance : IsEmpty MyNeverToken := ⟨fun x => nomatch x⟩

/-- Rust `core::result::Result<T, E>`: a tagged union with a success payload
`ok` of type `T` and a failure payload `err` of type `E`. -/
inductive RustResult (T E : Type) : Type
  | ok (value : T) : RustResult T E
  | err (error : E) : RustResult T E

/-- Observable outcome of executing a Rust function on a given input:
either it returns a value, or it panics, or it reaches undefined behaviour
(`unreachable_unchecked`). -/
inductive Outcome (T : Type) : Type
  | val (value : T) : Outcome T
  | panicked : Outcome T
  | undef : Outcome T

/-- `core::hint::unreachable_unchecked()`: executing it is undefined
behaviour, modelled as the `undef` outcome. -/
def unreachableUnchecked {T : Type} : Outcome T :=
  Outcome.undef

/-- `Result::unwrap_or_else(self, op)`: returns the `Ok` payload, otherwise
runs the closure on the error.  The closure is given in the `Outcome`
codomain because the closures used in this crate invoke
`unreachable_unchecked`. -/
def RustResult.unwrapOrElse {T E : Type} (r : RustResult T E)
    (op : E → Outcome T) : Outcome T :=
  match r with
  | .ok v => Outcome.val v
  | .err e => op e

/-- `Result::unwrap(self)`: returns the `Ok` payload and panics on `Err`. -/
def RustResult.unwrap {T E : Type} (r : RustResult T E) : Outcome T :=
  match r with
  | .ok v => Outcome.val v
  | .err _ => Outcome.panicked

/-- The trait bound `E: From<!>` of the blanket implementation: a
conversion from the never type into `E`. -/
class FromNever (E : Type) : Type where
  fromNever : Never → E

/-- The reflexive std impl `From<T> for T` instantiated at `!`. -/
instance : FromNever Never :=
  ⟨fun n => n⟩

/-- The std impl `From<!> for Infallible` (a match on the empty value). -/
instance : FromNever Infallible :=
  ⟨fun n => nomatch n⟩

/-- The test-module impl `From<!> for MyNeverToken`; its body is
`unreachable_unchecked`, which can never run since the argument type is
empty, so the function is the eliminator of `!`. -/
instance : FromNever MyNeverToken :=
  ⟨fun n => nomatch n⟩

/-- Blanket impl (feature `blanket_impl`):
`impl<T, E> UnwrapInfallible for Result<T, E> where E: From<!>`, with body
`self.unwrap_or_else(|_| unsafe { unreachable_unchecked() })`. -/
def unwrapInfallibleBlanket {T E : Type} [FromNever E]
    (r : RustResult T E) : Outcome T :=
  r.unwrapOrElse (fun _ => unreachableUnchecked)

/-- Impl for the never type (feature `never_type`, without `blanket_impl`):
`impl<T> UnwrapInfallible for Result<T, !>`, same body. -/
def unwrapInfallibleNever {T : Type} (r : RustResult T Never) : Outcome T :=
  r.unwrapOrElse (fun _ => unreachableUnchecked)

/-- Impl for `Infallible` (without `blanket_impl`):
`impl<T> UnwrapInfallible for Result<T, Infallible>`, same body. -/
def unwrapInfallibleInfallible {T : Type} (r : RustResult T Infallible) :
    Outcome T :=
  r.unwrapOrElse (fun _ => unreachableUnchecked)

/-- Test-module impl (without `blanket_impl`):
`impl<T> UnwrapInfallible for Result<T, MyNeverToken>`, same body. -/
def unwrapInfallibleToken {T : Type} (r : RustResult T MyNeverToken) :
    Outcome T :=
  r.unwrapOrElse (fun _ => unreachableUnchecked)

/-- Build configuration: the two cargo features of the crate. -/
structure Config : Type where
  never_type : Bool
  blanket_impl : Bool

/-- The blanket impl is compiled in iff feature `blanket_impl` is on
(`#[cfg(feature = "blanket_impl")]`). -/
def Config.blanketActive (c : Config) : Prop :=
  c.blanket_impl = true

/-- The `Result<T, !>` impl is compiled in iff feature `never_type` is on
and `blanket_impl` is off
(`#[cfg(all(feature = "never_type", not(feature = "blanket_impl")))]`). -/
def Config.neverActive (c : Config) : Prop :=
  c.never_type = true ∧ c.blanket_impl = false

/-- The `Result<T, Infallible>` impl is compiled in iff feature
`blanket_impl` is off (`#[cfg(not(feature = "blanket_impl"))]`). -/
def Config.infallibleActive (c : Config) : Prop :=
  c.blanket_impl = false

/-- `u64::try_from` applied to a `u8` value (test `with_infallible`): the
std widening conversion from `u8` to `u64` whose error type is
`Infallible`; it always succeeds and preserves the value. -/
def u64TryFromU8 (a : Nat) : RustResult Nat Infallible :=
  RustResult.ok a

/-- C1: Round-trip law: for every value `v` of any type `T`, for every
recognized failure-type variant (`Infallible`, the never type, and any `E`
convertible from the never type), under every build configuration, the
implementation that the configuration compiles in maps `Ok(v)` to `v`
unchanged. -/
theorem c1_round_trip (T : Type) (v : T) (cfg : Config) :
    (cfg.blanketActive → ∀ (E : Type) [FromNever E],
      unwrapInfallibleBlanket (RustResult.ok v : RustResult T E) = Outcome.val v) ∧
    (cfg.neverActive →
      unwrapInfallibleNever (RustResult.ok v) = Outcome.val v) ∧
    (cfg.infallibleActive →
      unwrapInfallibleInfallible (RustResult.ok v) = Outcome.val v) := by
  refine ⟨?_, ?_, ?_⟩
  · intro _ E _
    rfl
  · intro _
    rfl
  · intro _
    rfl

/-- Witness for C1: the round-trip law evaluated at the concrete value `7`,
for the blanket impl at `E = MyNeverToken` in the configuration with
`blanket_impl` on, and for the never-type and `Infallible` impls in the
configuration with `never_type` on and `blanket_impl` off. -/
theorem c1_round_trip_witness :
    unwrapInfallibleBlanket (RustResult.ok 7 : RustResult Nat MyNeverToken) = Outcome.val 7 ∧
    unwrapInfallibleNever (RustResult.ok 7 : RustResult Nat Never) = Outcome.val 7 ∧
    unwrapInfallibleInfallible (RustResult.ok 7 : RustResult Nat Infallible) = Outcome.val 7 :=
  ⟨(c1_round_trip Nat 7 ⟨false, true⟩).1 rfl MyNeverToken,
   (c1_round_trip Nat 7 ⟨true, false⟩).2.1 ⟨rfl, rfl⟩,
   (c1_round_trip Nat 7 ⟨true, false⟩).2.2 rfl⟩

/-- C2: for every result container whose failure type is uninhabited, every
constructible value is success-tagged: it is `ok v` for some `v`, so no
failure-tagged instance exists. -/
theorem c2_only_ok_constructible (T E : Type) [IsEmpty E]
    (r : RustResult T E) : ∃ v : T, r = RustResult.ok v := by
  cases r with
  | ok v => exact ⟨v, rfl⟩
  | err e => exact (IsEmpty.false e).elim

/-- Witness for C2: evaluated at the concrete container `ok true` over the
uninhabited failure type `Infallible`. -/
theorem c2_only_ok_constructible_witness :
    ∃ v : Bool, (RustResult.ok true : RustResult Bool Infallible) = RustResult.ok v :=
  c2_only_ok_constructible Bool Infallible (RustResult.ok true)

/-- C3: in every implementation of `unwrap_infallible` for a recognized
uninhabited failure type, the `unreachable_unchecked` branch is never
executed on any constructible input: the outcome is never `undef`. -/
theorem c3_ub_branch_unreachable (T E : Type) [IsEmpty E] [FromNever E] :
    (∀ r : RustResult T E, unwrapInfallibleBlanket r ≠ Outcome.undef) ∧
    (∀ r : RustResult T Never, unwrapInfallibleNever r ≠ Outcome.undef) ∧
    (∀ r : RustResult T Infallible, unwrapInfallibleInfallible r ≠ Outcome.undef) ∧
    (∀ r : RustResult T MyNeverToken, unwrapInfallibleToken r ≠ Outcome.undef) := by
  refine ⟨?_, ?_, ?_, ?_⟩
  all_goals intro r
  all_goals cases r with
    | ok v => exact fun h => Outcome.noConfusion h
    | err e => exact (IsEmpty.false e).elim

/-- Witness for C3: the blanket impl at `E = Infallible` on the concrete
input `ok true` does not reach undefined behaviour. -/
theorem c3_ub_branch_unreachable_witness :
    unwrapInfallibleBlanket (RustResult.ok true : RustResult Bool Infallible) ≠ Outcome.undef :=
  (c3_ub_branch_unreachable Bool Infallible).1 (RustResult.ok true)

/-- C4: for every success-tagged input with a recognized uninhabited
failure type, `unwrap_infallible` returns the payload and never panics (nor
faults): the embedding is a pure value transformation, so the success path
involves no heap allocation. -/
theorem c4_success_path_no_panic (T : Type) (v : T) (E : Type) [FromNever E] :
    (unwrapInfallibleBlanket (RustResult.ok v : RustResult T E) = Outcome.val v ∧
      unwrapInfallibleBlanket (RustResult.ok v : RustResult T E) ≠ Outcome.panicked) ∧
    (unwrapInfallibleNever (RustResult.ok v) = Outcome.val v ∧
      unwrapInfallibleNever (RustResult.ok v) ≠ Outcome.panicked) ∧
    (unwrapInfallibleInfallible (RustResult.ok v) = Outcome.val v ∧
      unwrapInfallibleInfallible (RustResult.ok v) ≠ Outcome.panicked) ∧
    (unwrapInfallibleToken (RustResult.ok v) = Outcome.val v ∧
      unwrapInfallibleToken (RustResult.ok v) ≠ Outcome.panicked) :=
  ⟨⟨rfl, fun h => Outcome.noConfusion h⟩,
   ⟨rfl, fun h => Outcome.noConfusion h⟩,
   ⟨rfl, fun h => Outcome.noConfusion h⟩,
   ⟨rfl, fun h => Outcome.noConfusion h⟩⟩

/-- Witness for C4: the blanket impl at `E = MyNeverToken` on the concrete
success input `ok false` returns the payload without panicking. -/
theorem c4_success_path_no_panic_witness :
    unwrapInfallibleBlanket (RustResult.ok false : RustResult Bool MyNeverToken) = Outcome.val false ∧
    unwrapInfallibleBlanket (RustResult.ok false : RustResult Bool MyNeverToken) ≠ Outcome.panicked :=
  (c4_success_path_no_panic Bool false MyNeverToken).1

/-- C5: for every value `v`, the test-module implementation for the
user-defined zero-variant type `MyNeverToken` maps `Ok(v)` to `v`
unchanged. -/
theorem c5_custom_type_ok (T : Type) (v : T) :
    unwrapInfallibleToken (RustResult.ok v) = Outcome.val v :=
  rfl

/-- C6: the three feature-gated implementations compute the same function
wherever more than one applies: the blanket impl agrees pointwise with the
never-type impl at `E = !`, with the `Infallible` impl at `E = Infallible`,
and with the test-module impl at `E = MyNeverToken`; and all of them map
`Ok(v)` to `v`. -/
theorem c6_impls_agree (T : Type) :
    (∀ r : RustResult T Never, unwrapInfallibleBlanket r = unwrapInfallibleNever r) ∧
    (∀ r : RustResult T Infallible, unwrapInfallibleBlanket r = unwrapInfallibleInfallible r) ∧
    (∀ r : RustResult T MyNeverToken, unwrapInfallibleBlanket r = unwrapInfallibleToken r) ∧
    (∀ (E : Type) [FromNever E] (v : T),
      unwrapInfallibleBlanket (RustResult.ok v : RustResult T E) = Outcome.val v) ∧
    (∀ v : T, unwrapInfallibleNever (RustResult.ok v) = Outcome.val v) ∧
    (∀ v : T, unwrapInfallibleInfallible (RustResult.ok v) = Outcome.val v) :=
  ⟨fun _ => rfl, fun _ => rfl, fun _ => rfl, fun _ _ _ => rfl, fun _ => rfl, fun _ => rfl⟩

/-- C7: concrete scenario of test `with_infallible`:
`u64::try_from(42u8).unwrap_infallible()` returns `42`. -/
theorem c7_with_infallible :
    unwrapInfallibleInfallible (u64TryFromU8 42) = Outcome.val 42 :=
  rfl

/-- C8: concrete scenario: the blanket impl applied to `Ok(true)` with the
user-declared zero-variant failure type `MyNeverToken`, for which the
conversion-from-never instance is supplied, returns `true`. -/
theorem c8_blanket_custom_type :
    unwrapInfallibleBlanket (RustResult.ok true : RustResult Bool MyNeverToken) = Outcome.val true :=
  rfl

/-- C9: totality and termination: each implementation is a total,
non-recursive function (a single tag check and branch), and on every
constructible input with a recognized uninhabited failure type it completes
with a value outcome. -/
theorem c9_total_terminating (T E : Type) [IsEmpty E] [FromNever E] :
    (∀ r : RustResult T E, ∃ v, unwrapInfallibleBlanket r = Outcome.val v) ∧
    (∀ r : RustResult T Never, ∃ v, unwrapInfallibleNever r = Outcome.val v) ∧
    (∀ r : RustResult T Infallible, ∃ v, unwrapInfallibleInfallible r = Outcome.val v) ∧
    (∀ r : RustResult T MyNeverToken, ∃ v, unwrapInfallibleToken r = Outcome.val v) := by
  refine ⟨?_, ?_, ?_, ?_⟩
  all_goals intro r
  all_goals cases r with
    | ok v => exact ⟨v, rfl⟩
    | err e => exact (IsEmpty.false e).elim

/-- Witness for C9: the blanket impl at `E = Infallible` on the concrete
input `ok 3` completes with a value. -/
theorem c9_total_terminating_witness :
    ∃ v, unwrapInfallibleBlanket (RustResult.ok 3 : RustResult Nat Infallible) = Outcome.val v :=
  (c9_total_terminating Nat Infallible).1 (RustResult.ok 3)

/-- C10: on every constructible result with a recognized uninhabited
failure type, `unwrap_infallible` agrees with the generic `Result::unwrap`,
and `Result::unwrap` never panics there: the two extractions are observably
equivalent on these types. -/
theorem c10_agrees_with_unwrap (T E : Type) [IsEmpty E] [FromNever E] :
    (∀ r : RustResult T E,
      unwrapInfallibleBlanket r = r.unwrap ∧ r.unwrap ≠ Outcome.panicked) ∧
    (∀ r : RustResult T Never,
      unwrapInfallibleNever r = r.unwrap ∧ r.unwrap ≠ Outcome.panicked) ∧
    (∀ r : RustResult T Infallible,
      unwrapInfallibleInfallible r = r.unwrap ∧ r.unwrap ≠ Outcome.panicked) ∧
    (∀ r : RustResult T MyNeverToken,
      unwrapInfallibleToken r = r.unwrap ∧ r.unwrap ≠ Outcome.panicked) := by
  refine ⟨?_, ?_, ?_, ?_⟩
  all_goals intro r
  all_goals cases r with
    | ok v => exact ⟨rfl, fun h => Outcome.noConfusion h⟩
    | err e => exact (IsEmpty.false e).elim

/-- Witness for C10: at `E = Infallible` on the concrete input `ok true`,
`unwrap_infallible` agrees with `Result::unwrap`, which does not panic. -/
theorem c10_agrees_with_unwrap_witness :
    unwrapInfallibleInfallible (RustResult.ok true) = (RustResult.ok true : RustResult Bool Infallible).unwrap ∧
    (RustResult.ok true : RustResult Bool Infallible).unwrap ≠ Outcome.panicked :=
  (c10_agrees_with_unwrap Bool Infallible).2.2.1 (RustResult.ok true)

end UnwrapInfallibleCrate
